import Mathlib

/-!
Verification development for the rstslide `Parser` pipeline
(src/rsttools/Parser.py): metadata extraction from the parsed document
tree, theme resolution, resource (script/stylesheet) resolution under the
central/local/inline policies, and percent-style template rendering for
the title slide, footer, header and body fragments.

The Python code is shallowly embedded: the docutils DOM becomes a tree of
`Node`s, Python dictionaries become ordered association lists (insertion
order preserved, as in Python 3), Python exceptions become `Except PyErr`,
and the filesystem side effects of the local resource policy become an
explicit `FS` state (set of existing paths, list of performed copies).
-/

/-! ### Association lists: the embedding of Python dictionaries.
`setA` replaces the value in place when the key exists (keeping its
position, as Python dict assignment does) and appends otherwise. -/

def lookupA {α : Type} : List (String × α) → String → Option α
  | [], _ => none
  | (k, v) :: rest, key => if k = key then some v else lookupA rest key

def setA {α : Type} : List (String × α) → String → α → List (String × α)
  | [], key, v => [(key, v)]
  | (k, w) :: rest, key, v =>
    if k = key then (k, v) :: rest else (k, w) :: setA rest key v

def delA {α : Type} : List (String × α) → String → List (String × α)
  | [], _ => []
  | (k, w) :: rest, key =>
    if k = key then delA rest key else (k, w) :: delA rest key

/-- Concatenation of a list of strings (the reference aggregator used in
theorem statements about accumulated output fragments). -/
def strConcat : List String → String
  | [] => ""
  | s :: rest => s ++ strConcat rest

/-! Character-level embeddings of the Python string primitives the code
uses (`startswith`, `endswith`, `lower`, single-character `split`,
`replace`); spelled out over the character list so that every definition
in this file evaluates by reduction. -/

def sStartsWith (s pre : String) : Bool :=
  pre.data.isPrefixOf s.data

def sEndsWith (s suffix : String) : Bool :=
  suffix.data.isSuffixOf s.data

def charLower (c : Char) : Char :=
  if 65 ≤ c.toNat ∧ c.toNat ≤ 90 then Char.ofNat (c.toNat + 32) else c

def sToLower (s : String) : String :=
  String.mk (s.data.map charLower)

def sSplitOnCharAux (sep : Char) (cur : List Char) : List Char → List String
  | [] => [String.mk cur.reverse]
  | c :: rest =>
    if c = sep then String.mk cur.reverse :: sSplitOnCharAux sep [] rest
    else sSplitOnCharAux sep (c :: cur) rest

/-- Python `s.split(sep)` for a one-character separator. -/
def sSplitOnChar (s : String) (sep : Char) : List String :=
  sSplitOnCharAux sep [] s.data

def sReplaceFuel (old new : List Char) : Nat → List Char → List Char
  | _, [] => []
  | 0, l => l
  | fuel + 1, c :: rest =>
    if old ≠ [] ∧ old.isPrefixOf (c :: rest) then
      new ++ sReplaceFuel old new fuel (rest.drop (old.length - 1))
    else c :: sReplaceFuel old new fuel rest

/-- Python `s.replace(old, new)` (left-to-right, non-overlapping; the code
only calls it with a non-empty `old`). -/
def sReplace (s old new : String) : String :=
  String.mk (sReplaceFuel old.data new.data s.data.length s.data)

/-- Embedding of `os.path.join(a, b)` for the two-argument case. -/
def joinPath (a b : String) : String :=
  if sStartsWith b "/" then b
  else if a = "" then b
  else if sEndsWith a "/" then a ++ b
  else a ++ "/" ++ b

/-- Embedding of `os.path.basename`: the part after the last slash. -/
def basename (p : String) : String :=
  (sSplitOnChar p '/').getLastD p

/-- Whether `sub` occurs as a contiguous sublist of `l`. -/
def listContainsSub (sub : List Char) : List Char → Bool
  | [] => sub.isEmpty
  | c :: rest => sub.isPrefixOf (c :: rest) || listContainsSub sub rest

/-- Embedding of the Python substring test `pat in s`. -/
def containsStr (s pat : String) : Bool :=
  listContainsSub pat.data s.data

/-! ### Python exceptions raised by the embedded code. -/

inductive PyErr where
  | keyError (key : String)
  | valueError (msg : String)
  | nameError (msg : String)
  | typeError (msg : String)
  | attributeError (msg : String)
  | indexError (msg : String)
deriving DecidableEq

/-! ### Percent-style formatting: the embedding of Python's
`template % mapping` for the named `%(name)s` placeholders that this code
base uses.  A placeholder whose name is not a key of the mapping raises
`KeyError(name)`; a `%` not introducing `%%` or `%(name)s` raises
`ValueError` (the code base only ever uses the `s` conversion, so the
other conversions are embedded as the failure case). -/

def pformatAux (m : List (String × String)) (acc? : Option (List Char)) :
    List Char → Except PyErr String
  | [] =>
    match acc? with
    | none => Except.ok ""
    | some _ => Except.error (PyErr.valueError "incomplete format")
  | c :: rest =>
    match acc? with
    | some acc =>
      if c = ')' then
        match rest with
        | [] => Except.error (PyErr.valueError "incomplete format")
        | c2 :: rest2 =>
          if c2 = 's' then
            match lookupA m (String.mk acc.reverse) with
            | some v => (pformatAux m none rest2).map (fun s => v ++ s)
            | none => Except.error (PyErr.keyError (String.mk acc.reverse))
          else Except.error (PyErr.valueError "unsupported format character")
      else pformatAux m (some (c :: acc)) rest
    | none =>
      if c = '%' then
        match rest with
        | [] => Except.error (PyErr.valueError "incomplete format")
        | c2 :: rest2 =>
          if c2 = '%' then (pformatAux m none rest2).map (fun s => "%" ++ s)
          else if c2 = '(' then pformatAux m (some []) rest2
          else Except.error (PyErr.valueError "unsupported format character")
      else (pformatAux m none rest).map (fun s => String.mk [c] ++ s)

def pformat (t : String) (m : List (String × String)) : Except PyErr String :=
  pformatAux m none t.data

/-- The placeholder names `%(name)s` referenced by a template, in the order
the formatting scan reaches them (the scan stops at a malformed escape,
exactly where `pformatAux` raises `ValueError`). -/
def placeholdersAux (acc? : Option (List Char)) : List Char → List String
  | [] => []
  | c :: rest =>
    match acc? with
    | some acc =>
      if c = ')' then
        match rest with
        | [] => []
        | c2 :: rest2 =>
          if c2 = 's' then String.mk acc.reverse :: placeholdersAux none rest2
          else []
      else placeholdersAux (some (c :: acc)) rest
    | none =>
      if c = '%' then
        match rest with
        | [] => []
        | c2 :: rest2 =>
          if c2 = '%' then placeholdersAux none rest2
          else if c2 = '(' then placeholdersAux (some []) rest2
          else []
      else placeholdersAux none rest

def placeholders (t : String) : List String :=
  placeholdersAux none t.data

/-- Modelled from the spec: the upstream HTML-unescaping layer (the
`unescape` imported from `html`/`cgi`, which is outside this repository),
restricted to the predefined XML entities, which suffices for the
properties proved here. -/
def unescapeAux : List Char → List Char
  | [] => []
  | '&' :: 'a' :: 'm' :: 'p' :: ';' :: rest => '&' :: unescapeAux rest
  | '&' :: 'l' :: 't' :: ';' :: rest => '<' :: unescapeAux rest
  | '&' :: 'g' :: 't' :: ';' :: rest => '>' :: unescapeAux rest
  | '&' :: 'q' :: 'u' :: 'o' :: 't' :: ';' :: rest => '"' :: unescapeAux rest
  | '&' :: '#' :: '3' :: '9' :: ';' :: rest => Char.ofNat 39 :: unescapeAux rest
  | c :: rest => c :: unescapeAux rest

def unescape (s : String) : String :=
  String.mk (unescapeAux s.data)

/-! ### The document tree: the embedding of the minidom view
(`doctree.asdom()`) that `_parse_docinfo` walks.  Text nodes carry their
data; element nodes carry their tag name, their `classes` attribute and
their children. -/

mutual
inductive Node where
  | text (data : String)
  | elem (tag : String) (classes : String) (children : NodeList)
inductive NodeList where
  | nil
  | cons (head : Node) (tail : NodeList)
end

def NodeList.toList : NodeList → List Node
  | .nil => []
  | .cons n rest => n :: NodeList.toList rest

def nodeList : List Node → NodeList
  | [] => .nil
  | n :: rest => .cons n (nodeList rest)

/-- `childNodes` of a minidom node (a text node has none). -/
def Node.childNodes : Node → NodeList
  | .text _ => .nil
  | .elem _ _ cs => cs

/-- `tagName`: defined for elements only; accessing it on a text node is an
`AttributeError` in Python, embedded as `none` here. -/
def Node.tagName : Node → Option String
  | .text _ => none
  | .elem tag _ _ => some tag

/-- `nodeValue`: the data of a text node, `None` for elements. -/
def Node.nodeValue : Node → Option String
  | .text d => some d
  | .elem _ _ _ => none

/-- `firstChild`: `None` when there are no children. -/
def Node.firstChild (n : Node) : Option Node :=
  match n.childNodes with
  | .nil => none
  | .cons h _ => some h

/-- The `classes` attribute (`getAttribute("classes")` returns the empty
string when the attribute is absent). -/
def Node.classesAttr : Node → String
  | .text _ => ""
  | .elem _ cls _ => cls

/-! Embedding of the nested `getText` helper of `_parse_docinfo`: the
depth-first concatenation of all text data below a list of nodes. -/

mutual
def getTextNode : Node → String
  | .text d => d
  | .elem _ _ cs => getTextNL cs
def getTextNL : NodeList → String
  | .nil => ""
  | .cons n rest => getTextNode n ++ getTextNL rest
end

/-! `getElementsByTagName`, preorder, over a node and over a node list. -/

mutual
def elementsInNode (t : String) : Node → List Node
  | .text _ => []
  | .elem tag cls cs =>
    (if tag = t then [Node.elem tag cls cs] else []) ++ elementsInNL t cs
def elementsInNL (t : String) : NodeList → List Node
  | .nil => []
  | .cons n rest => elementsInNode t n ++ elementsInNL t rest
end

/-! ### The settings dictionary.  Values written by `_parse_docinfo` are
strings or lists of strings. -/

inductive SVal where
  | str (s : String)
  | list (l : List String)
deriving DecidableEq

abbrev Store := List (String × SVal)

/-- `str()`-like rendering used where a settings value is formatted into a
piece of output (`repr` of the parts for a list, as Python would render the
list object). -/
def SVal.pyStr : SVal → String
  | .str s => s
  | .list l =>
    "[" ++ String.intercalate ", "
      (l.map (fun x => String.mk (Char.ofNat 39 :: (x.data ++ [Char.ofNat 39])))) ++ "]"

/-- `[x.firstChild.nodeValue for x in authors]`.  A missing or non-text
`firstChild` is embedded as the failure case (Python would raise
`AttributeError` on a childless author and store `None` for an element
child; neither shape occurs in well-formed docutils trees). -/
def authorNames : List Node → Option (List String)
  | [] => some []
  | a :: rest =>
    match a.firstChild with
    | none => none
    | some c =>
      match c.nodeValue with
      | none => none
      | some v => (authorNames rest).map (fun l => v :: l)

/-- The body of `for field in docinfo.childNodes` in `_parse_docinfo`:
suffix-driven dispatch on the lower-cased field name.  The `-list-add`
bulleted branch evaluates the comprehension
`[getText(c.childNodes) for x in c.childNodes]`, whose iterable names the
unbound variable `c`, so it raises `NameError` in Python; the embedding
returns that error. -/
def processDocinfoChild (d : Store) (field : Node) : Except PyErr Store :=
  match field.tagName with
  | none => Except.error (PyErr.attributeError "Text instance has no attribute tagName")
  | some tag =>
    if tag = "authors" then
      match authorNames (elementsInNL "author" field.childNodes) with
      | none => Except.error (PyErr.attributeError "author firstChild nodeValue")
      | some names => Except.ok (setA d "authors" (SVal.list names))
    else if tag = "field" then
      match elementsInNL "field_name" field.childNodes with
      | [] => Except.error (PyErr.indexError "field_name")
      | fn :: _ =>
        match fn.firstChild with
        | none => Except.error (PyErr.attributeError "NoneType has no attribute nodeValue")
        | some fnc =>
          match fnc.nodeValue with
          | none => Except.error (PyErr.attributeError "NoneType has no attribute lower")
          | some fnv =>
            let fieldNameStr := sToLower fnv
            match elementsInNL "field_body" field.childNodes with
            | [] => Except.error (PyErr.indexError "field_body")
            | fb :: _ =>
              if sEndsWith fieldNameStr "-list" then
                let key := fieldNameStr.dropRight 5
                match fb.firstChild with
                | none => Except.error (PyErr.attributeError "NoneType has no attribute tagName")
                | some c =>
                  match c.tagName with
                  | none => Except.error (PyErr.attributeError "Text instance has no attribute tagName")
                  | some ctag =>
                    if ctag = "bullet_list" then
                      Except.ok (setA d key (SVal.list
                        ((fb.childNodes.toList).map (fun x => getTextNL x.childNodes))))
                    else
                      Except.ok (setA d key (SVal.list [getTextNL fb.childNodes]))
              else if sEndsWith fieldNameStr "-list-add" then
                let key := fieldNameStr.dropRight 9
                let d2 := if (lookupA d key).isNone then setA d key (SVal.list []) else d
                match fb.firstChild with
                | none => Except.error (PyErr.attributeError "NoneType has no attribute tagName")
                | some c =>
                  match c.tagName with
                  | none => Except.error (PyErr.attributeError "Text instance has no attribute tagName")
                  | some ctag =>
                    if ctag = "bullet_list" then
                      Except.error (PyErr.nameError "name c is not defined")
                    else
                      match lookupA d2 key with
                      | some (SVal.list l) =>
                        Except.ok (setA d2 key (SVal.list (l ++ [getTextNL fb.childNodes])))
                      | some (SVal.str _) =>
                        Except.error (PyErr.typeError "can only concatenate list to list")
                      | none => Except.error (PyErr.keyError key)
              else
                Except.ok (setA d fieldNameStr (SVal.str (getTextNL fb.childNodes)))
    else
      Except.ok (setA d tag (SVal.str (getTextNL field.childNodes)))

def processFields (d : Store) : List Node → Except PyErr Store
  | [] => Except.ok d
  | f :: rest =>
    match processDocinfoChild d f with
    | Except.error e => Except.error e
    | Except.ok d2 => processFields d2 rest

def parseDocinfos (d : Store) : List Node → Except PyErr Store
  | [] => Except.ok d
  | di :: rest =>
    match processFields d di.childNodes.toList with
    | Except.error e => Except.error e
    | Except.ok d2 => parseDocinfos d2 rest

/-- The topic pass of `_parse_docinfo`: a topic whose (lower-cased)
`classes` attribute is exactly `abstract` or `dedication` stores its
collected text under that class name. -/
def parseTopics (d : Store) (topics : List Node) : Store :=
  topics.foldl
    (fun d topic =>
      let classes := sToLower topic.classesAttr
      if classes = "abstract" ∨ classes = "dedication" then
        setA d classes (SVal.str (getTextNL topic.childNodes))
      else d)
    d

/-- Embedding of `Parser._parse_docinfo(doctree, d)`. -/
def parse_docinfo (doctree : Node) (d : Store) : Except PyErr Store :=
  match parseDocinfos d (elementsInNode "docinfo" doctree) with
  | Except.error e => Except.error e
  | Except.ok d2 => Except.ok (parseTopics d2 (elementsInNode "topic" doctree))

/-! ### Theme resolution: the theme-lookup part of `create_slides`
(user-local `themes/<name>` first, then the built-in theme directory,
warning and unchanged settings when neither exists).  Reading and parsing
the theme file happens outside this repository (codecs/docutils), so the
re-parsed combined document arrives here as `themeTree`. -/

def resolveTheme (existsUserTheme existsBuiltinTheme : Bool) (rstslideRoot : String)
    (themeTree : Node) (settings : Store) : Except PyErr (Store × Bool) :=
  match lookupA settings "theme" with
  | none => Except.ok (settings, false)
  | some (SVal.list _) => Except.error (PyErr.typeError "join expects str")
  | some (SVal.str name) =>
    let settings2 :=
      if existsUserTheme then
        setA settings "theme_path" (SVal.str (joinPath "themes" name))
      else if existsBuiltinTheme then
        setA settings "theme_path"
          (SVal.str (joinPath (joinPath rstslideRoot "themes") name))
      else settings
    if (lookupA settings2 "theme_path").isSome then
      match parse_docinfo themeTree settings2 with
      | Except.error e => Except.error e
      | Except.ok merged => Except.ok (delA merged "theme_path", false)
    else
      Except.ok (settings2, true)

/-! ### `_analyse_metainfo`: the `parts['metadata']` lines become a
string-valued mapping, pre-seeded with `author` mapped to the empty
string.  The regex clean-up applied to each line's content (an external
`re` concern) is passed in as `clean`. -/

def metaLineStep (clean : String → String) (m : List (String × String))
    (t : String) : List (String × String) :=
  if t ≠ "" then
    let name := (sSplitOnChar t '=').headD ""
    let content := sReplace t (name ++ "=") ""
    setA m name (clean content)
  else m

def analyseMetainfo (clean : String → String) (metadata : String) :
    List (String × String) :=
  (sSplitOnChar metadata '\n').foldl (metaLineStep clean) [("author", "")]

/-! ### `_generate_titleslide`: defaulting of the six metadata keys, the
three derived separator flags, template resolution and rendering of the
title slide and the footer element. -/

structure TSettings where
  firstslide_template : String
  footer_template : String
  write_footer : Bool
  page_number : Bool

def stepTitle (partsTitle : String) (m : List (String × String)) :
    List (String × String) :=
  if partsTitle ≠ "" then setA m "title" partsTitle
  else if (lookupA m "title").isNone then setA m "title" ""
  else m

def stepSubtitle (partsSubtitle : String) (m : List (String × String)) :
    List (String × String) :=
  if partsSubtitle ≠ "" then setA m "subtitle" partsSubtitle
  else if (lookupA m "subtitle").isNone then setA m "subtitle" ""
  else m

def stepDefault (key : String) (m : List (String × String)) :
    List (String × String) :=
  if (lookupA m key).isNone then setA m key "" else m

/-- Lines 313 to 335 of `_generate_titleslide`: default the six metadata
keys, then set the three derived flags (`meta_info['author']` is read
directly; it is present because `_analyse_metainfo` seeds it). -/
def populateMetaDefaults (partsTitle partsSubtitle : String)
    (m0 : List (String × String)) : List (String × String) :=
  let m1 := stepTitle partsTitle m0
  let m2 := stepSubtitle partsSubtitle m1
  let m3 := stepDefault "email" m2
  let m4 := stepDefault "institution" m3
  let m5 := stepDefault "date" m4
  let m6 := setA m5 "is_institution"
    (if (lookupA m5 "institution").getD "" ≠ "" then "-" else "")
  let m7 := setA m6 "is_author"
    (if (lookupA m6 "author").getD "" ≠ "" then "." else "")
  setA m7 "is_subtitle"
    (if (lookupA m7 "subtitle").getD "" ≠ "" then "." else "")

def defaultFirstslideTemplate : String :=
  "\n    <section class=\"titleslide\" data-state=\"no-toc-progress\">\n    <h1>%(title)s</h1>\n    <h3>%(subtitle)s</h3>\n    <br>\n    <p><a href=\"mailto:%(email)s\">%(author)s</a> %(is_institution)s %(institution)s</p>\n    <p><small>%(email)s</small></p>\n    <p>%(date)s</p>\n    </section>\n"

def defaultFooterTemplate : String :=
  "<b>%(title)s %(is_subtitle)s %(subtitle)s.</b> %(author)s%(is_institution)s %(institution)s. %(date)s"

/-- Lines 355 to 360 of `_generate_titleslide`: the footer element.  When
`write_footer` is set the footer template is rendered (with the slide
number element appended inside the footer) regardless of `page_number`;
otherwise `page_number` alone yields the bare slide-number footer. -/
def buildFooterHtml (writeFooter pageNumber : Bool) (footerTemplate : String)
    (meta : List (String × String)) : Except PyErr String :=
  if writeFooter then
    (pformat footerTemplate meta).map
      (fun r => "<footer id=\"footer\">" ++ r
        ++ "<b id=\"slide_number\" style=\"padding: 1em;\"></b></footer>")
  else if pageNumber then
    Except.ok "<footer><b id=\"slide_number\"></b></footer>"
  else Except.ok ""

/-- Lines 337 to 349: an empty `firstslide_template` setting is replaced by
the baked-in default; a non-empty (user-supplied) one is HTML-unescaped. -/
def resolveFirstslide (stg : TSettings) : TSettings :=
  if stg.firstslide_template = "" then
    { stg with firstslide_template := defaultFirstslideTemplate }
  else
    { stg with firstslide_template := unescape stg.firstslide_template }

/-- Lines 352 to 353: an empty `footer_template` setting is replaced by the
baked-in default; a non-empty one is kept as it is. -/
def resolveFooterTemplate (stg : TSettings) : TSettings :=
  if stg.footer_template = "" then
    { stg with footer_template := defaultFooterTemplate }
  else stg

/-- Embedding of `_generate_titleslide` (after `_analyse_metainfo` has
built `meta0`): returns the mutated settings, the rendered title slide and
the footer element html. -/
def generateTitleslide (stg : TSettings) (partsTitle partsSubtitle : String)
    (meta0 : List (String × String)) : Except PyErr (TSettings × String × String) :=
  let meta := populateMetaDefaults partsTitle partsSubtitle meta0
  let stg2 := resolveFirstslide stg
  match pformat stg2.firstslide_template meta with
  | Except.error e => Except.error e
  | Except.ok titleslide =>
    let stg3 := resolveFooterTemplate stg2
    match buildFooterHtml stg3.write_footer stg3.page_number stg3.footer_template meta with
    | Except.error e => Except.error e
    | Except.ok footerHtml => Except.ok (stg3, titleslide, footerHtml)

/-! ### `_generate_header`: resource resolution for scripts and
stylesheets under the central/local/inline policies, then the header
template.  The filesystem is explicit: `FS.present` is the set of paths
that exist in the per-output resource directory, `FS.copies` the
`shutil.copyfile` calls performed. -/

structure FS where
  present : List String
  copies : List (String × String)

/-- The local-policy copy step (lines 381 to 384 / 406 to 409): copy the
file to `<resource dir>/<basename>` unless that destination already
exists. -/
def localCopy (dirAbs : String) (fs : FS) (file : String) : FS :=
  let abspath := joinPath dirAbs (basename file)
  if abspath ∈ fs.present then fs
  else { present := abspath :: fs.present, copies := fs.copies ++ [(file, abspath)] }

def countCopiesTo (fs : FS) (d : String) : Nat :=
  (fs.copies.filter (fun p => p.2 == d)).length

/-- `<script src="%(path)s"></script>\n`. -/
def scriptTag (path : String) : String :=
  "<script src=\"" ++ path ++ "\"></script>\n"

/-- The stylesheet link directive, with the `id="theme"` attribute when
the path lies under the reveal theme directory (the substring test of
line 415). -/
def cssTagFor (revealRoot path : String) : String :=
  if containsStr path (joinPath revealRoot "theme") then
    "<link rel=\"stylesheet\" href=\"" ++ path ++ "\" id=\"theme\" />\n"
  else
    "<link rel=\"stylesheet\" href=\"" ++ path ++ "\" />\n"

/-- `\n<!-- inlining %(path)s --->\n\n`. -/
def inlineMarker (path : String) : String :=
  "\n<!-- inlining " ++ path ++ " --->\n\n"

/-- The inputs of `_generate_header`: the relevant `self` attributes, the
typed settings entries it reads, and the file contents read when
inlining. -/
structure HeaderIn where
  resources : String
  resource_dir_abspath : String
  resource_dir_relpath : String
  mathjax_root : String
  reveal_root : String
  rstslide_root : String
  content : String → String
  title : String
  parts_meta : String
  settings : Store
  js_files : List String
  css_files : List String
  js_embedd : List String
  css_embedd : List String
  reveal_theme : String
  horizontal_center : Bool
  title_center : Bool

/-- One iteration of the `for js_file in self.settings['js_files']` loop
(lines 380 to 393), threading the filesystem and the two accumulators
`js_embedd` and `custom_js`. -/
def jsStep (h : HeaderIn) (acc : FS × String × String) (jsFile : String) :
    FS × String × String :=
  let fs := acc.1
  let jsEmbedd := acc.2.1
  let customJs := acc.2.2
  let fsPath :=
    if h.resources = "local" then
      (localCopy h.resource_dir_abspath fs jsFile,
       joinPath h.resource_dir_relpath (basename jsFile))
    else (fs, jsFile)
  if h.resources ≠ "inline" then
    (fsPath.1, jsEmbedd, customJs ++ scriptTag fsPath.2)
  else
    (fsPath.1, jsEmbedd ++ inlineMarker fsPath.2 ++ h.content jsFile ++ "\n\n", customJs)

/-- One iteration of the `for css_file in self.settings['css_files']` loop
(lines 405 to 424). -/
def cssStep (h : HeaderIn) (acc : FS × String × String) (cssFile : String) :
    FS × String × String :=
  let fs := acc.1
  let cssEmbedd := acc.2.1
  let customStylesheets := acc.2.2
  let fsPath :=
    if h.resources = "local" then
      (localCopy h.resource_dir_abspath fs cssFile,
       joinPath h.resource_dir_relpath (basename cssFile))
    else (fs, cssFile)
  if h.resources ≠ "inline" then
    (fsPath.1, cssEmbedd, customStylesheets ++ cssTagFor h.reveal_root fsPath.2)
  else
    (fsPath.1, cssEmbedd ++ inlineMarker fsPath.2 ++ h.content cssFile, customStylesheets)

/-- The line-373 prepend: the MathJax bundle and the reveal script before
every user-declared script. -/
def jsFilesAll (h : HeaderIn) : List String :=
  joinPath h.mathjax_root "tex-svg.js" :: joinPath h.reveal_root "reveal.js" :: h.js_files

/-- The line-397 prepend: the base reveal stylesheet, the theme
stylesheet, the rstslide stylesheet before every user-declared
stylesheet. -/
def cssFilesAll (h : HeaderIn) : List String :=
  joinPath h.reveal_root "reveal.css"
    :: joinPath (joinPath h.reveal_root "theme") (h.reveal_theme ++ ".css")
    :: joinPath (joinPath h.rstslide_root "css") "rstslide.css"
    :: h.css_files

/-- Lines 364 to 371: the extra meta tags derived from the settings
(`abstract`, `author`, and one tag per entry of `authors`; iterating a
string value of `authors` iterates its characters, as Python would). -/
def extraMetaOf (settings : Store) : String :=
  (match lookupA settings "abstract" with
   | some v => "<meta description=\"" ++ v.pyStr ++ "\" />\n"
   | none => "") ++
  (match lookupA settings "author" with
   | some v => "<meta author=\"" ++ v.pyStr ++ "\" />\n"
   | none => "") ++
  (match lookupA settings "authors" with
   | some (SVal.list l) =>
     strConcat (l.map (fun a => "<meta author=\"" ++ a ++ "\" />\n"))
   | some (SVal.str s) =>
     strConcat (s.data.map (fun c => "<meta author=\"" ++ String.mk [c] ++ "\" />\n"))
   | none => "")

def headerTemplate : String :=
  "<!doctype html>\n        <html lang=\"en\">\n\t        <head>\n\t\t        <meta charset=\"utf-8\">\n\t\t        <title>%(title)s</title>\n\t\t        <meta name=\"description\" content=\"%(title)s\">\n\t\t        %(meta)s\n\t\t        %(extra_meta)s\n                        %(custom_js)s\n                        %(custom_stylesheets)s\n                <script>\n                   %(js_embedd)s\n                </script>\n                <style>\n                    %(css_embedd)s\n\n                    .reveal section \x7b\n                      text-align: %(horizontal_center)s;\n                    \x7d\n\n                    .reveal h2\x7b\n                      text-align: %(title_center)s;\n                    \x7d\n                </style>\n\t        </head>\n        "

/-- The `header % {...}` application of lines 452 to 463, with the
mapping entries in the source's order. -/
def headerRender (title partsMeta extraMeta revealTheme revealRoot rstslideRoot : String)
    (horizontalCenter titleCenter : Bool)
    (cssEmbedd jsEmbedd customJs customStylesheets : String) : Except PyErr String :=
  pformat headerTemplate
    [("title", title), ("meta", partsMeta), ("extra_meta", extraMeta),
     ("reveal_theme", revealTheme), ("reveal_root", revealRoot),
     ("rstslide_root", rstslideRoot),
     ("horizontal_center", if horizontalCenter then "center" else "left"),
     ("title_center", if titleCenter then "center" else "left"),
     ("css_embedd", cssEmbedd), ("js_embedd", jsEmbedd),
     ("custom_js", customJs), ("custom_stylesheets", customStylesheets)]

/-- Embedding of `_generate_header`: prepend the default assets, run the
two resource loops, append the embedded settings blocks, render the header
template. -/
def generateHeader (h : HeaderIn) (fs0 : FS) : FS × Except PyErr String :=
  let jsRes := (jsFilesAll h).foldl (jsStep h) (fs0, "", "")
  let jsEmbedd := jsRes.2.1 ++ String.intercalate "\n" h.js_embedd
  let cssRes := (cssFilesAll h).foldl (cssStep h) (jsRes.1, "", "")
  let cssEmbedd := cssRes.2.1 ++ String.intercalate "\n" h.css_embedd
  (cssRes.1,
   headerRender h.title h.parts_meta (extraMetaOf h.settings) h.reveal_theme
     h.reveal_root h.rstslide_root h.horizontal_center h.title_center
     cssEmbedd jsEmbedd jsRes.2.2 cssRes.2.2)

/-! ### `_generate_footer` and `_generate_body`. -/

def revealInitPart1 : String :=
  "\n\t\t        <script>\n\t\t\t        // Full list of configuration options available here:\n\t\t\t        // https://github.com/hakimel/reveal.js#configuration\n\t\t\t        Reveal.initialize(\x7b\n\t\t\t\t        controls: %(controls)s,\n\t\t\t\t        progress: false,\n\t\t\t\t        hash: true,\n\t\t\t\t        overview: true,\n\t\t\t\t        keyboard: true,\n\t\t\t\t        loop: false,\n\t\t\t\t        touch: true,\n\t\t\t\t        rtl: false,\n\t\t\t\t        center: %(vertical_center)s,\n\t\t\t\t        mouseWheel: false,\n\t\t\t\t        fragments: true,\n\t\t\t\t        rollingLinks: false,\n\t\t\t\t        transition: '%(transition)s',\n                                        transitionSpeed: 'fast',"

def revealInitPart2 : String :=
  "\n                                        slideNumber: '',\n                                        menu : \x7b\n                                          side: 'right',\n                                          width: 'normal',\n                                          numbers: false,\n                                          titleSelector: 'h1, h2, h3, h4, h5, h6',\n                                          useTextContentForMissingTitles: false,\n                                          hideMissingTitles: false,\n                                          markers: true,\n                                          custom: false,"

def revealInitPart3 : String :=
  "\n                                          themes: false,\n                                          themesPath: 'css/theme/',\n                                          transitions: false,\n                                          openButton: true,\n                                          openSlideNumber: false,\n                                          keyboard: true,\n                                          sticky: false,\n                                          autoOpen: true,\n                                          delayInit: false,\n                                          openOnInit: false,"

def revealInitPart4 : String :=
  "\n                                          loadIcons: true,\n                                        \x7d,\n      \tkeyboard: \x7b\n        37: 'prev', // right\n      \t39: 'next', // left\n      \t33: 'prev', // page up\n      \t34: 'next', // page down\n      \t38: 'prev', // page up\n      \t40: 'next', // page down\n      \t109: function() \x7bReveal.left(); Reveal.slide(Reveal.getIndices()['h'],0,0);\x7d, // minus\n      \t107: function() \x7bReveal.right(); Reveal.slide(Reveal.getIndices()['h'],0,0);\x7d, // plus\n      \t\x7d,\n        dependencies: [\n          \x7b src: '%(rsttools_root)s/reveal-plugins/reveal.js-menu/menu.js', async: true \x7d,"

def revealInitPart5 : String :=
  "\n          \x7b src: '%(rsttools_root)s/reveal-plugins/toc-progress/toc-progress.js',\n                async: true,\n                callback: function()\n                \x7b\n                    toc_progress.initialize(null,null,'\x7b background-color: white; color: black;\x7d');\n                    toc_progress.create();\n                \x7d\n          \x7d\n          ]\n        \x7d);\n\n\t\t        </script>"

/-- The reveal initialization script template of lines 511 to 575 (the
concatenation of the five chunks above, split for tractable evaluation). -/
def revealInitTemplate : String :=
  revealInitPart1 ++ revealInitPart2 ++ revealInitPart3 ++ revealInitPart4 ++ revealInitPart5

def footerCloseTemplate : String :=
  "\n            %(script_page_number)s\n\n\t        %(footer)s\n\t        </body>\n        </html>"

/-- Embedding of `_generate_footer`: pick `init_html` when non-empty, else
the reveal initialization template; append the closing fragment; apply the
percent substitution of lines 584 to 591. -/
def generateFooter (initHtml transition footerHtml revealRoot rstslideRoot rsttoolsRoot : String)
    (verticalCenter controls : Bool) : Except PyErr String :=
  let scriptPageNumber := ""
  let footer0 := if initHtml ≠ "" then initHtml else revealInitTemplate
  pformat (footer0 ++ footerCloseTemplate)
    [("transition", transition), ("footer", footerHtml),
     ("reveal_root", revealRoot), ("rstslide_root", rstslideRoot),
     ("rsttools_root", rsttoolsRoot), ("script_page_number", scriptPageNumber),
     ("vertical_center", if verticalCenter then "true" else "false"),
     ("controls", if controls then "true" else "false")]

def bodyTemplate : String :=
  "\n\t        <body>\n                        <div class=\"static-content\"></div>\n\t\t        <div class=\"reveal\">\n\t\t\t        <div class=\"slides\">\n%(titleslide)s\n%(body)s\n\t\t\t        </div>\n\t\t        </div>\n        "

/-- Embedding of `_generate_body`. -/
def generateBody (partsBody titleslide : String) : Except PyErr String :=
  pformat bodyTemplate [("body", partsBody), ("titleslide", titleslide)]

/-! ### Helper lemmas. -/

theorem sAppend_empty (a : String) : a ++ "" = a := by
  apply String.ext
  simp [String.data_append]

theorem sEmpty_append (a : String) : "" ++ a = a := by
  apply String.ext
  simp [String.data_append]

theorem sAppend_assoc (a b c : String) : a ++ b ++ c = a ++ (b ++ c) := by
  apply String.ext
  simp [String.data_append]

theorem listContainsSub_cons (pat : List Char) (c : Char) (l : List Char) :
    listContainsSub pat (c :: l) = (pat.isPrefixOf (c :: l) || listContainsSub pat l) := rfl

theorem prefix_stops_at_nl (b2 : List Char) :
    ∀ (a pat : List Char), pat ≠ [] → '\n' ∉ pat →
      pat.isPrefixOf (a ++ '\n' :: b2) = pat.isPrefixOf a := by
  intro a
  induction a with
  | nil =>
    intro pat hne hnl
    match pat, hne with
    | p :: ps, _ =>
      simp only [List.mem_cons, not_or] at hnl
      have hp : (p == '\n') = false := by
        rw [beq_eq_false_iff_ne]
        exact fun h => hnl.1 h.symm
      simp [List.isPrefixOf, hp]
  | cons c a2 ih =>
    intro pat hne hnl
    match pat, hne with
    | p :: ps, _ =>
      simp only [List.mem_cons, not_or] at hnl
      cases ps with
      | nil => simp [List.isPrefixOf]
      | cons q qs =>
        simp only [List.cons_append, List.isPrefixOf, List.append_eq]
        rw [ih (q :: qs) (by simp) hnl.2]

theorem contains_append_nl (b2 : List Char) (pat : List Char) (hne : pat ≠ [])
    (hnl : '\n' ∉ pat) :
    ∀ (a : List Char),
      listContainsSub pat (a ++ '\n' :: b2)
        = (listContainsSub pat a || listContainsSub pat ('\n' :: b2)) := by
  intro a
  induction a with
  | nil =>
    match pat, hne with
    | p :: ps, _ => simp [listContainsSub, List.isEmpty]
  | cons c a2 ih =>
    have hp : pat.isPrefixOf (c :: (a2 ++ '\n' :: b2)) = pat.isPrefixOf (c :: a2) := by
      rw [← List.cons_append]
      exact prefix_stops_at_nl b2 (c :: a2) pat hne hnl
    rw [List.cons_append, listContainsSub_cons, hp, ih,
        listContainsSub_cons pat c a2, ← Bool.or_assoc]

theorem containsStr_append_of_nl (s1 s2 pat : String) (hne : pat.data ≠ [])
    (hnl : '\n' ∉ pat.data) (h2 : ∃ b2, s2.data = '\n' :: b2) :
    containsStr (s1 ++ s2) pat = (containsStr s1 pat || containsStr s2 pat) := by
  obtain ⟨b2, hb2⟩ := h2
  unfold containsStr
  rw [String.data_append, hb2, contains_append_nl b2 pat.data hne hnl]

/-! ### Formatting-scan lemmas: a referenced-but-missing placeholder makes
the scan fail with a `KeyError`, and a `KeyError` only ever names a key
that is genuinely absent from the mapping. -/

theorem placeholdersAux_some_ne (acc : List Char) (c : Char) (rest : List Char)
    (hc : ¬c = ')') :
    placeholdersAux (some acc) (c :: rest) = placeholdersAux (some (c :: acc)) rest := by
  cases rest <;> simp [placeholdersAux, hc]

theorem placeholdersAux_none_ne (c : Char) (rest : List Char) (hp : ¬c = '%') :
    placeholdersAux none (c :: rest) = placeholdersAux none rest := by
  cases rest <;> simp [placeholdersAux, hp]

theorem pformatAux_some_ne (m : List (String × String)) (acc : List Char) (c : Char)
    (rest : List Char) (hc : ¬c = ')') :
    pformatAux m (some acc) (c :: rest) = pformatAux m (some (c :: acc)) rest := by
  cases rest <;> simp [pformatAux, hc]

theorem pformatAux_none_ne (m : List (String × String)) (c : Char)
    (rest : List Char) (hp : ¬c = '%') :
    pformatAux m none (c :: rest) = (pformatAux m none rest).map (fun s => String.mk [c] ++ s) := by
  cases rest <;> simp [pformatAux, hp]

theorem pformat_missing_aux :
    ∀ (N : Nat) (l : List Char), l.length ≤ N →
      ∀ (acc? : Option (List Char)) (m : List (String × String)) (n : String),
        n ∈ placeholdersAux acc? l → lookupA m n = none →
        ∃ k, lookupA m k = none ∧ pformatAux m acc? l = Except.error (PyErr.keyError k) := by
  intro N
  induction N with
  | zero =>
    intro l hlen acc? m n hmem _
    have hl : l = [] := List.eq_nil_of_length_eq_zero (Nat.le_zero.mp hlen)
    subst hl
    simp [placeholdersAux] at hmem
  | succ N ih =>
    intro l hlen acc? m n hmem hmiss
    cases l with
    | nil => simp [placeholdersAux] at hmem
    | cons c rest =>
      have hrest : rest.length ≤ N := by
        simp at hlen
        omega
      cases acc? with
      | some acc =>
        by_cases hc : c = ')'
        · subst hc
          cases rest with
          | nil => simp [placeholdersAux] at hmem
          | cons c2 rest2 =>
            have hrest2 : rest2.length ≤ N := by
              simp at hlen
              omega
            by_cases hs : c2 = 's'
            · subst hs
              simp only [placeholdersAux, if_pos rfl, ite_true] at hmem
              cases hlook : lookupA m (String.mk acc.reverse) with
              | none =>
                refine ⟨String.mk acc.reverse, hlook, ?_⟩
                simp [pformatAux, hlook]
              | some v =>
                cases hmem with
                | head =>
                  rw [hlook] at hmiss
                  exact absurd hmiss (by simp)
                | tail _ hmem =>
                  obtain ⟨k, hk, heq⟩ := ih rest2 hrest2 none m n hmem hmiss
                  refine ⟨k, hk, ?_⟩
                  simp [pformatAux, hlook, heq, Except.map]
            · simp only [placeholdersAux, if_pos rfl, ite_true, if_neg hs, ite_false] at hmem
              exact absurd hmem (List.not_mem_nil n)
        · rw [placeholdersAux_some_ne acc c rest hc] at hmem
          obtain ⟨k, hk, heq⟩ := ih rest hrest (some (c :: acc)) m n hmem hmiss
          refine ⟨k, hk, ?_⟩
          rw [pformatAux_some_ne m acc c rest hc]
          exact heq
      | none =>
        by_cases hp : c = '%'
        · subst hp
          cases rest with
          | nil => simp [placeholdersAux] at hmem
          | cons c2 rest2 =>
            have hrest2 : rest2.length ≤ N := by
              simp at hlen
              omega
            by_cases h2 : c2 = '%'
            · subst h2
              simp only [placeholdersAux, if_pos rfl, ite_true] at hmem
              obtain ⟨k, hk, heq⟩ := ih rest2 hrest2 none m n hmem hmiss
              refine ⟨k, hk, ?_⟩
              simp [pformatAux, heq, Except.map]
            · by_cases h3 : c2 = '('
              · subst h3
                simp only [placeholdersAux, if_pos rfl, ite_true, if_neg (by decide : ¬('(' = '%')), ite_false] at hmem
                obtain ⟨k, hk, heq⟩ := ih rest2 hrest2 (some []) m n hmem hmiss
                refine ⟨k, hk, ?_⟩
                simpa [pformatAux] using heq
              · simp only [placeholdersAux, if_pos rfl, ite_true, if_neg h2, ite_false,
                  if_neg h3] at hmem
                exact absurd hmem (List.not_mem_nil n)
        · rw [placeholdersAux_none_ne c rest hp] at hmem
          obtain ⟨k, hk, heq⟩ := ih rest hrest none m n hmem hmiss
          refine ⟨k, hk, ?_⟩
          rw [pformatAux_none_ne m c rest hp, heq]
          rfl

theorem pformat_keyError_aux :
    ∀ (N : Nat) (l : List Char), l.length ≤ N →
      ∀ (acc? : Option (List Char)) (m : List (String × String)) (k : String),
        pformatAux m acc? l = Except.error (PyErr.keyError k) → lookupA m k = none := by
  intro N
  induction N with
  | zero =>
    intro l hlen acc? m k h
    have hl : l = [] := List.eq_nil_of_length_eq_zero (Nat.le_zero.mp hlen)
    subst hl
    cases acc? <;> simp [pformatAux] at h
  | succ N ih =>
    intro l hlen acc? m k h
    cases l with
    | nil => cases acc? <;> simp [pformatAux] at h
    | cons c rest =>
      have hrest : rest.length ≤ N := by
        simp at hlen
        omega
      cases acc? with
      | some acc =>
        by_cases hc : c = ')'
        · subst hc
          cases rest with
          | nil => simp [pformatAux] at h
          | cons c2 rest2 =>
            have hrest2 : rest2.length ≤ N := by
              simp at hlen
              omega
            by_cases hs : c2 = 's'
            · subst hs
              cases hlook : lookupA m (String.mk acc.reverse) with
              | none =>
                simp only [pformatAux, if_pos rfl, ite_true, hlook, Except.error.injEq,
                  PyErr.keyError.injEq] at h
                rw [← h]
                exact hlook
              | some v =>
                simp only [pformatAux, if_pos rfl, ite_true, hlook] at h
                cases hrec : pformatAux m none rest2 with
                | ok a =>
                  rw [hrec] at h
                  simp [Except.map] at h
                | error e =>
                  rw [hrec] at h
                  simp only [Except.map, Except.error.injEq] at h
                  rw [h] at hrec
                  exact ih rest2 hrest2 none m k hrec
            · simp only [pformatAux, if_pos rfl, ite_true, if_neg hs, ite_false] at h
              exact absurd h (by simp)
        · rw [pformatAux_some_ne m acc c rest hc] at h
          exact ih rest hrest (some (c :: acc)) m k h
      | none =>
        by_cases hp : c = '%'
        · subst hp
          cases rest with
          | nil => simp [pformatAux] at h
          | cons c2 rest2 =>
            have hrest2 : rest2.length ≤ N := by
              simp at hlen
              omega
            by_cases h2 : c2 = '%'
            · subst h2
              simp only [pformatAux, if_pos rfl, ite_true] at h
              cases hrec : pformatAux m none rest2 with
              | ok a =>
                rw [hrec] at h
                simp [Except.map] at h
              | error e =>
                rw [hrec] at h
                simp only [Except.map, Except.error.injEq] at h
                rw [h] at hrec
                exact ih rest2 hrest2 none m k hrec
            · by_cases h3 : c2 = '('
              · subst h3
                simp only [pformatAux, if_pos rfl, ite_true,
                  if_neg (by decide : ¬('(' = '%')), ite_false] at h
                exact ih rest2 hrest2 (some []) m k h
              · simp only [pformatAux, if_pos rfl, ite_true, if_neg h2, ite_false,
                  if_neg h3] at h
                exact absurd h (by simp)
        · rw [pformatAux_none_ne m c rest hp] at h
          cases hrec : pformatAux m none rest with
          | ok a =>
            rw [hrec] at h
            simp [Except.map] at h
          | error e =>
            rw [hrec] at h
            simp only [Except.map, Except.error.injEq] at h
            rw [h] at hrec
            exact ih rest hrest none m k hrec

theorem pformat_keyError_means_missing (t : String) (m : List (String × String))
    (k : String) (h : pformat t m = Except.error (PyErr.keyError k)) :
    lookupA m k = none :=
  pformat_keyError_aux t.data.length t.data le_rfl none m k h

/-! ### Dictionary lemmas: `setA` writes are visible and never erase other
keys. -/

theorem lookupA_setA_self {α : Type} (m : List (String × α)) (k : String) (v : α) :
    lookupA (setA m k v) k = some v := by
  induction m with
  | nil => simp [setA, lookupA]
  | cons kv rest ih =>
    obtain ⟨k2, w⟩ := kv
    by_cases h : k2 = k
    · simp [setA, h, lookupA]
    · simp [setA, h, lookupA, ih]

theorem lookupA_setA_ne {α : Type} (m : List (String × α)) (k k2 : String) (v : α)
    (hne : k2 ≠ k) : lookupA (setA m k2 v) k = lookupA m k := by
  induction m with
  | nil => simp [setA, lookupA, hne]
  | cons kv rest ih =>
    obtain ⟨k3, w⟩ := kv
    by_cases h : k3 = k2
    · simp [setA, h, lookupA, hne]
    · by_cases h2 : k3 = k
      · subst h2
        simp [setA, h, lookupA]
      · simp [setA, h, lookupA, h2, ih]

theorem isSome_setA {α : Type} (m : List (String × α)) (k k2 : String) (v : α)
    (h : (lookupA m k).isSome) : (lookupA (setA m k2 v) k).isSome := by
  by_cases he : k2 = k
  · subst he
    rw [lookupA_setA_self]
    rfl
  · rw [lookupA_setA_ne m k k2 v he]
    exact h

theorem stepDefault_self (key : String) (m : List (String × String)) :
    (lookupA (stepDefault key m) key).isSome := by
  by_cases h : (lookupA m key).isNone
  · simp [stepDefault, h, lookupA_setA_self]
  · simp only [stepDefault, h, ite_false]
    simp [Option.isNone_iff_eq_none] at h
    simp [Option.isSome_iff_ne_none, h]

theorem isSome_stepDefault (key n : String) (m : List (String × String))
    (h : (lookupA m n).isSome) : (lookupA (stepDefault key m) n).isSome := by
  by_cases hk : (lookupA m key).isNone
  · simp only [stepDefault, hk, ite_true]
    exact isSome_setA m n key "" h
  · simp only [stepDefault, hk, ite_false]
    exact h

theorem stepTitle_self (pt : String) (m : List (String × String)) :
    (lookupA (stepTitle pt m) "title").isSome := by
  by_cases hp : pt ≠ ""
  · simp [stepTitle, hp, lookupA_setA_self]
  · by_cases h : (lookupA m "title").isNone
    · simp [stepTitle, hp, h, lookupA_setA_self]
    · simp only [stepTitle, hp, ite_false, h]
      simp [Option.isNone_iff_eq_none] at h
      simp [Option.isSome_iff_ne_none, h]

theorem isSome_stepTitle (pt n : String) (m : List (String × String))
    (h : (lookupA m n).isSome) : (lookupA (stepTitle pt m) n).isSome := by
  by_cases hp : pt ≠ ""
  · have he : stepTitle pt m = setA m "title" pt := by simp [stepTitle, hp]
    rw [he]
    exact isSome_setA m n "title" pt h
  · by_cases hk : (lookupA m "title").isNone
    · have he : stepTitle pt m = setA m "title" "" := by simp [stepTitle, hp, hk]
      rw [he]
      exact isSome_setA m n "title" "" h
    · have he : stepTitle pt m = m := by simp [stepTitle, hp, hk]
      rw [he]
      exact h

theorem stepSubtitle_self (ps : String) (m : List (String × String)) :
    (lookupA (stepSubtitle ps m) "subtitle").isSome := by
  by_cases hp : ps ≠ ""
  · simp [stepSubtitle, hp, lookupA_setA_self]
  · by_cases h : (lookupA m "subtitle").isNone
    · simp [stepSubtitle, hp, h, lookupA_setA_self]
    · simp only [stepSubtitle, hp, ite_false, h]
      simp [Option.isNone_iff_eq_none] at h
      simp [Option.isSome_iff_ne_none, h]

theorem isSome_stepSubtitle (ps n : String) (m : List (String × String))
    (h : (lookupA m n).isSome) : (lookupA (stepSubtitle ps m) n).isSome := by
  by_cases hp : ps ≠ ""
  · have he : stepSubtitle ps m = setA m "subtitle" ps := by simp [stepSubtitle, hp]
    rw [he]
    exact isSome_setA m n "subtitle" ps h
  · by_cases hk : (lookupA m "subtitle").isNone
    · have he : stepSubtitle ps m = setA m "subtitle" "" := by simp [stepSubtitle, hp, hk]
      rw [he]
      exact isSome_setA m n "subtitle" "" h
    · have he : stepSubtitle ps m = m := by simp [stepSubtitle, hp, hk]
      rw [he]
      exact h

theorem isSome_metaLineStep (clean : String → String) (n t : String)
    (m : List (String × String)) (h : (lookupA m n).isSome) :
    (lookupA (metaLineStep clean m t) n).isSome := by
  by_cases ht : t ≠ ""
  · have he : metaLineStep clean m t
        = setA m ((sSplitOnChar t '=').headD "")
            (clean (sReplace t ((sSplitOnChar t '=').headD "" ++ "=") "")) := by
      simp [metaLineStep, ht]
    rw [he]
    exact isSome_setA _ _ _ _ h
  · have he : metaLineStep clean m t = m := by simp [metaLineStep, ht]
    rw [he]
    exact h

theorem analyse_author_isSome (clean : String → String) (metadata : String) :
    (lookupA (analyseMetainfo clean metadata) "author").isSome := by
  unfold analyseMetainfo
  have hbase : (lookupA [("author", "")] "author").isSome := rfl
  generalize [("author", ("" : String))] = m0 at hbase
  induction sSplitOnChar metadata '\n' generalizing m0 with
  | nil => exact hbase
  | cons t rest ih =>
    rw [List.foldl_cons]
    exact ih (metaLineStep clean m0 t) (isSome_metaLineStep clean "author" t m0 hbase)

theorem populate_all_isSome (pt ps : String) (m0 : List (String × String))
    (hauthor : (lookupA m0 "author").isSome) (n : String)
    (hn : n ∈ ["title", "subtitle", "author", "email", "institution", "date",
      "is_institution", "is_author", "is_subtitle"]) :
    (lookupA (populateMetaDefaults pt ps m0) n).isSome := by
  simp only [populateMetaDefaults]
  simp only [List.mem_cons, List.not_mem_nil, or_false] at hn
  rcases hn with rfl | rfl | rfl | rfl | rfl | rfl | rfl | rfl | rfl
  · exact isSome_setA _ _ _ _ (isSome_setA _ _ _ _ (isSome_setA _ _ _ _
      (isSome_stepDefault _ _ _ (isSome_stepDefault _ _ _ (isSome_stepDefault _ _ _
        (isSome_stepSubtitle _ _ _ (stepTitle_self pt m0)))))))
  · exact isSome_setA _ _ _ _ (isSome_setA _ _ _ _ (isSome_setA _ _ _ _
      (isSome_stepDefault _ _ _ (isSome_stepDefault _ _ _ (isSome_stepDefault _ _ _
        (stepSubtitle_self ps _))))))
  · exact isSome_setA _ _ _ _ (isSome_setA _ _ _ _ (isSome_setA _ _ _ _
      (isSome_stepDefault _ _ _ (isSome_stepDefault _ _ _ (isSome_stepDefault _ _ _
        (isSome_stepSubtitle _ _ _ (isSome_stepTitle _ _ _ hauthor)))))))
  · exact isSome_setA _ _ _ _ (isSome_setA _ _ _ _ (isSome_setA _ _ _ _
      (isSome_stepDefault _ _ _ (isSome_stepDefault _ _ _ (stepDefault_self _ _)))))
  · exact isSome_setA _ _ _ _ (isSome_setA _ _ _ _ (isSome_setA _ _ _ _
      (isSome_stepDefault _ _ _ (stepDefault_self _ _))))
  · exact isSome_setA _ _ _ _ (isSome_setA _ _ _ _ (isSome_setA _ _ _ _
      (stepDefault_self _ _)))
  · exact isSome_setA _ _ _ _ (isSome_setA _ _ _ _
      (by rw [lookupA_setA_self]; rfl))
  · exact isSome_setA _ _ _ _ (by rw [lookupA_setA_self]; rfl)
  · rw [lookupA_setA_self]
    rfl

/-! ### Resource-loop lemmas: the two `_generate_header` loops under each
policy, and copy counting for the local policy. -/

theorem foldl_jsStep_inline (h : HeaderIn) (hres : h.resources = "inline") :
    ∀ (files : List String) (fs : FS) (a b : String),
      files.foldl (jsStep h) (fs, a, b) =
        (fs, a ++ strConcat (files.map (fun f => inlineMarker f ++ h.content f ++ "\n\n")), b) := by
  intro files
  induction files with
  | nil =>
    intro fs a b
    simp [strConcat, sAppend_empty]
  | cons f rest ih =>
    intro fs a b
    rw [List.foldl_cons]
    have hstep : jsStep h (fs, a, b) f
        = (fs, a ++ inlineMarker f ++ h.content f ++ "\n\n", b) := by
      simp [jsStep, hres]
    rw [hstep, ih]
    simp [strConcat, sAppend_assoc]

theorem foldl_cssStep_inline (h : HeaderIn) (hres : h.resources = "inline") :
    ∀ (files : List String) (fs : FS) (a b : String),
      files.foldl (cssStep h) (fs, a, b) =
        (fs, a ++ strConcat (files.map (fun f => inlineMarker f ++ h.content f)), b) := by
  intro files
  induction files with
  | nil =>
    intro fs a b
    simp [strConcat, sAppend_empty]
  | cons f rest ih =>
    intro fs a b
    rw [List.foldl_cons]
    have hstep : cssStep h (fs, a, b) f
        = (fs, a ++ inlineMarker f ++ h.content f, b) := by
      simp [cssStep, hres]
    rw [hstep, ih]
    simp [strConcat, sAppend_assoc]

theorem foldl_jsStep_noncopy (h : HeaderIn) (hnl : h.resources ≠ "local")
    (hni : h.resources ≠ "inline") :
    ∀ (files : List String) (fs : FS) (a b : String),
      files.foldl (jsStep h) (fs, a, b) =
        (fs, a, b ++ strConcat (files.map scriptTag)) := by
  intro files
  induction files with
  | nil =>
    intro fs a b
    simp [strConcat, sAppend_empty]
  | cons f rest ih =>
    intro fs a b
    rw [List.foldl_cons]
    have hstep : jsStep h (fs, a, b) f = (fs, a, b ++ scriptTag f) := by
      simp [jsStep, hnl, hni]
    rw [hstep, ih]
    simp [strConcat, sAppend_assoc]

theorem foldl_cssStep_noncopy (h : HeaderIn) (hnl : h.resources ≠ "local")
    (hni : h.resources ≠ "inline") :
    ∀ (files : List String) (fs : FS) (a b : String),
      files.foldl (cssStep h) (fs, a, b) =
        (fs, a, b ++ strConcat (files.map (cssTagFor h.reveal_root))) := by
  intro files
  induction files with
  | nil =>
    intro fs a b
    simp [strConcat, sAppend_empty]
  | cons f rest ih =>
    intro fs a b
    rw [List.foldl_cons]
    have hstep : cssStep h (fs, a, b) f = (fs, a, b ++ cssTagFor h.reveal_root f) := by
      simp [cssStep, hnl, hni]
    rw [hstep, ih]
    simp [strConcat, sAppend_assoc]

theorem foldl_jsStep_local (h : HeaderIn) (hres : h.resources = "local") :
    ∀ (files : List String) (fs : FS) (a b : String),
      files.foldl (jsStep h) (fs, a, b) =
        (files.foldl (localCopy h.resource_dir_abspath) fs, a,
          b ++ strConcat (files.map
            (fun f => scriptTag (joinPath h.resource_dir_relpath (basename f))))) := by
  intro files
  induction files with
  | nil =>
    intro fs a b
    simp [strConcat, sAppend_empty]
  | cons f rest ih =>
    intro fs a b
    rw [List.foldl_cons, List.foldl_cons]
    have hstep : jsStep h (fs, a, b) f
        = (localCopy h.resource_dir_abspath fs f, a,
            b ++ scriptTag (joinPath h.resource_dir_relpath (basename f))) := by
      simp [jsStep, hres]
    rw [hstep, ih]
    simp [strConcat, sAppend_assoc]

theorem foldl_cssStep_local (h : HeaderIn) (hres : h.resources = "local") :
    ∀ (files : List String) (fs : FS) (a b : String),
      files.foldl (cssStep h) (fs, a, b) =
        (files.foldl (localCopy h.resource_dir_abspath) fs, a,
          b ++ strConcat (files.map
            (fun f => cssTagFor h.reveal_root (joinPath h.resource_dir_relpath (basename f))))) := by
  intro files
  induction files with
  | nil =>
    intro fs a b
    simp [strConcat, sAppend_empty]
  | cons f rest ih =>
    intro fs a b
    rw [List.foldl_cons, List.foldl_cons]
    have hstep : cssStep h (fs, a, b) f
        = (localCopy h.resource_dir_abspath fs f, a,
            b ++ cssTagFor h.reveal_root (joinPath h.resource_dir_relpath (basename f))) := by
      simp [cssStep, hres]
    rw [hstep, ih]
    simp [strConcat, sAppend_assoc]

theorem foldl_localCopy_mem (A d : String) :
    ∀ (files : List String) (fs : FS), d ∈ fs.present →
      countCopiesTo (files.foldl (localCopy A) fs) d = countCopiesTo fs d ∧
        d ∈ (files.foldl (localCopy A) fs).present := by
  intro files
  induction files with
  | nil =>
    intro fs hd
    exact ⟨rfl, hd⟩
  | cons f rest ih =>
    intro fs hd
    rw [List.foldl_cons]
    by_cases hex : joinPath A (basename f) ∈ fs.present
    · have hstep : localCopy A fs f = fs := by simp [localCopy, hex]
      rw [hstep]
      exact ih fs hd
    · have hstep : localCopy A fs f
          = FS.mk (joinPath A (basename f) :: fs.present)
              (fs.copies ++ [(f, joinPath A (basename f))]) := by
        simp [localCopy, hex]
      rw [hstep]
      have hdn : d ∈ (FS.mk (joinPath A (basename f) :: fs.present)
          (fs.copies ++ [(f, joinPath A (basename f))])).present :=
        List.mem_cons_of_mem _ hd
      obtain ⟨hc, hm⟩ := ih (FS.mk (joinPath A (basename f) :: fs.present)
        (fs.copies ++ [(f, joinPath A (basename f))])) hdn
      refine ⟨?_, hm⟩
      rw [hc]
      have hapd : (joinPath A (basename f) == d) = false :=
        beq_eq_false_iff_ne.mpr (fun he => hex (he ▸ hd))
      simp [countCopiesTo, List.filter_append, hapd]

theorem foldl_localCopy_count (A d : String) :
    ∀ (files : List String) (fs : FS), d ∉ fs.present →
      countCopiesTo (files.foldl (localCopy A) fs) d =
        countCopiesTo fs d +
          (if files.any (fun f => joinPath A (basename f) == d) then 1 else 0) := by
  intro files
  induction files with
  | nil =>
    intro fs _
    simp
  | cons f rest ih =>
    intro fs hd
    rw [List.foldl_cons]
    by_cases hd2 : joinPath A (basename f) = d
    · have hex : joinPath A (basename f) ∉ fs.present := hd2 ▸ hd
      have hstep : localCopy A fs f
          = FS.mk (joinPath A (basename f) :: fs.present)
              (fs.copies ++ [(f, joinPath A (basename f))]) := by
        simp [localCopy, hex]
      rw [hstep]
      have hdn : d ∈ (FS.mk (joinPath A (basename f) :: fs.present)
          (fs.copies ++ [(f, joinPath A (basename f))])).present := by
        rw [← hd2]
        exact List.mem_cons_self _ fs.present
      obtain ⟨hc, _⟩ := foldl_localCopy_mem A d rest (FS.mk
        (joinPath A (basename f) :: fs.present)
        (fs.copies ++ [(f, joinPath A (basename f))])) hdn
      rw [hc]
      have hbeq : (joinPath A (basename f) == d) = true := beq_iff_eq.mpr hd2
      simp [countCopiesTo, List.filter_append, hbeq, List.any_cons]
    · have hbeq : (joinPath A (basename f) == d) = false := beq_eq_false_iff_ne.mpr hd2
      by_cases hex : joinPath A (basename f) ∈ fs.present
      · have hstep : localCopy A fs f = fs := by simp [localCopy, hex]
        rw [hstep, ih fs hd]
        simp [List.any_cons, hbeq]
      · have hstep : localCopy A fs f
            = FS.mk (joinPath A (basename f) :: fs.present)
                (fs.copies ++ [(f, joinPath A (basename f))]) := by
          simp [localCopy, hex]
        rw [hstep]
        have hd3 : d ∉ (FS.mk (joinPath A (basename f) :: fs.present)
            (fs.copies ++ [(f, joinPath A (basename f))])).present := by
          simp only [List.mem_cons, not_or]
          exact ⟨fun he => hd2 he.symm, hd⟩
        rw [ih (FS.mk (joinPath A (basename f) :: fs.present)
          (fs.copies ++ [(f, joinPath A (basename f))])) hd3]
        have hc2 : countCopiesTo (FS.mk (joinPath A (basename f) :: fs.present)
            (fs.copies ++ [(f, joinPath A (basename f))])) d = countCopiesTo fs d := by
          simp [countCopiesTo, List.filter_append, hbeq]
        rw [hc2]
        simp [List.any_cons, hbeq]

/-! ### Template-resolution projection lemmas. -/

theorem resolveFirstslide_template (stg : TSettings) :
    (resolveFirstslide stg).firstslide_template =
      (if stg.firstslide_template = "" then defaultFirstslideTemplate
       else unescape stg.firstslide_template) := by
  by_cases h1 : stg.firstslide_template = "" <;> simp [resolveFirstslide, h1]

theorem resolveFirstslide_footer (stg : TSettings) :
    (resolveFirstslide stg).footer_template = stg.footer_template := by
  by_cases h1 : stg.firstslide_template = "" <;> simp [resolveFirstslide, h1]

theorem resolveFooterTemplate_first (stg : TSettings) :
    (resolveFooterTemplate stg).firstslide_template = stg.firstslide_template := by
  by_cases h1 : stg.footer_template = "" <;> simp [resolveFooterTemplate, h1]

theorem resolveFooterTemplate_footer_eq (stg : TSettings) :
    (resolveFooterTemplate stg).footer_template =
      (if stg.footer_template = "" then defaultFooterTemplate else stg.footer_template) := by
  by_cases h1 : stg.footer_template = "" <;> simp [resolveFooterTemplate, h1]

/-! ### Concrete inputs used by the code-bug evidence and the witnesses. -/

def bulletItem (s : String) : Node :=
  Node.elem "list_item" "" (nodeList [Node.elem "paragraph" "" (nodeList [Node.text s])])

def docinfoField (name : String) (body : List Node) : Node :=
  Node.elem "field" "" (nodeList
    [Node.elem "field_name" "" (nodeList [Node.text name]),
     Node.elem "field_body" "" (nodeList body)])

/-- A document whose docinfo holds one field `:X-list:` with a bulleted
body of two items, `a` and `b`. -/
def c1Doc : Node :=
  Node.elem "document" "" (nodeList
    [Node.elem "docinfo" "" (nodeList
      [docinfoField "X-list"
        [Node.elem "bullet_list" "" (nodeList [bulletItem "a", bulletItem "b"])]])])

/-- A document whose docinfo holds one field `:X-list:` with a plain
paragraph body `m` (which stores `x` as the one-entry list `["m"]`). -/
def c2DocPrefix : Node :=
  Node.elem "document" "" (nodeList
    [Node.elem "docinfo" "" (nodeList
      [docinfoField "X-list" [Node.elem "paragraph" "" (nodeList [Node.text "m"])]])])

/-- The same document followed by a field `:X-list-add:` with a bulleted
body of two items. -/
def c2Doc : Node :=
  Node.elem "document" "" (nodeList
    [Node.elem "docinfo" "" (nodeList
      [docinfoField "X-list" [Node.elem "paragraph" "" (nodeList [Node.text "m"])],
       docinfoField "X-list-add"
        [Node.elem "bullet_list" "" (nodeList [bulletItem "k1", bulletItem "k2"])]])])

/-! ### The claims. -/

/-- Claim C1 (code-bug evidence): for a well-formed `X-list` field whose
body's first structural child is a bulleted list of two items with texts
`a` and `b`, extraction stores the one-element list `["ab"]` under key `x`
— the comprehension on line 634 iterates the field body's children (the
single `bullet_list` node) instead of the bullet items — and not the two
per-bullet entries `["a", "b"]` that the claim (and the commented-out
predecessor of that line) requires. -/
theorem c1_list_field_one_entry :
    parse_docinfo c1Doc [] = Except.ok [("x", SVal.list ["ab"])]
      ∧ ["ab"] ≠ ["a", "b"] :=
  ⟨rfl, by decide⟩

/-- Claim C2 (code-bug evidence): after an `X-list` field has stored the
one-entry list `["m"]` under `x` (M = 1), a following `X-list-add` field
with a bulleted body of two items makes extraction fail with `NameError`
— the comprehension on line 642 iterates the unbound name `c` — instead of
yielding the M+K entries the claim requires. -/
theorem c2_list_add_raises_nameError :
    parse_docinfo c2DocPrefix [] = Except.ok [("x", SVal.list ["m"])]
      ∧ parse_docinfo c2Doc [] = Except.error (PyErr.nameError "name c is not defined") :=
  ⟨rfl, rfl⟩

/-- Claim C5: when the configured theme resolves to no existing theme
directory (neither the user-local nor the built-in one) and resolution
itself has not pre-set `theme_path`, theme resolution returns the settings
exactly unchanged together with the warning flag, and does not fail. -/
theorem c5_missing_theme_warns_unchanged (root : String) (tree : Node)
    (settings : Store) (name : String)
    (hTheme : lookupA settings "theme" = some (SVal.str name))
    (hNoPath : lookupA settings "theme_path" = none) :
    resolveTheme false false root tree settings = Except.ok (settings, true) := by
  simp [resolveTheme, hTheme, hNoPath]

theorem c5_missing_theme_warns_unchanged_witness :
    lookupA [("theme", SVal.str "missing")] "theme" = some (SVal.str "missing")
    ∧ lookupA [("theme", SVal.str "missing")] "theme_path" = none
    ∧ resolveTheme false false "" (Node.text "") [("theme", SVal.str "missing")]
        = Except.ok ([("theme", SVal.str "missing")], true) :=
  ⟨rfl, rfl,
    c5_missing_theme_warns_unchanged "" (Node.text "") [("theme", SVal.str "missing")]
      "missing" rfl rfl⟩

/-- Claim C6: rendering a template against a mapping fails with a
missing-key error (`KeyError` naming a genuinely absent key) whenever the
template references a placeholder `%(n)s` whose name `n` is not a key of
the mapping; the render never silently substitutes empty text for it. -/
theorem c6_missing_placeholder_fails (t : String) (m : List (String × String))
    (n : String) (hn : n ∈ placeholders t) (hmiss : lookupA m n = none) :
    ∃ k, lookupA m k = none ∧ pformat t m = Except.error (PyErr.keyError k) :=
  pformat_missing_aux t.data.length t.data le_rfl none m n hn hmiss

theorem c6_missing_placeholder_fails_witness :
    "foo" ∈ placeholders "%(foo)s"
    ∧ lookupA ([] : List (String × String)) "foo" = none
    ∧ ∃ k, lookupA ([] : List (String × String)) k = none
        ∧ pformat "%(foo)s" [] = Except.error (PyErr.keyError k) :=
  ⟨by decide, rfl,
    c6_missing_placeholder_fails "%(foo)s" [] "foo" (by decide) rfl⟩

/-- Claim C4 counterexample: the footer-template override is NOT
HTML-unescaped before use.  With the non-empty override `&amp;` the
rendered footer element contains the text `&amp;` verbatim, although its
unescaping is `&` and differs from it; so the claim that both
user-supplied templates are unescaped before use is false on the code. -/
theorem c4_claim_false :
    generateTitleslide (TSettings.mk "x" "&amp;" true false) "" "" [] =
      Except.ok (TSettings.mk "x" "&amp;" true false, "x",
        "<footer id=\"footer\">&amp;<b id=\"slide_number\" style=\"padding: 1em;\"></b></footer>")
    ∧ unescape "&amp;" = "&"
    ∧ ("&amp;" : String) ≠ "&" :=
  ⟨rfl, rfl, by decide⟩

/-- Claim C4 as amended: an empty `firstslide_template` or
`footer_template` setting is replaced by its baked-in default; a non-empty
title-slide override is HTML-unescaped before being used as the template,
while a non-empty footer override is used verbatim (it is NOT unescaped). -/
theorem c4_amended_templates (stg : TSettings) (pt ps : String)
    (m0 : List (String × String)) (stg2 : TSettings) (ts fh : String)
    (h : generateTitleslide stg pt ps m0 = Except.ok (stg2, ts, fh)) :
    stg2.firstslide_template =
      (if stg.firstslide_template = "" then defaultFirstslideTemplate
       else unescape stg.firstslide_template)
    ∧ stg2.footer_template =
      (if stg.footer_template = "" then defaultFooterTemplate
       else stg.footer_template) := by
  have hstg2 : stg2 = resolveFooterTemplate (resolveFirstslide stg) := by
    simp only [generateTitleslide] at h
    cases hpf : pformat (resolveFirstslide stg).firstslide_template
        (populateMetaDefaults pt ps m0) with
    | error e =>
      rw [hpf] at h
      cases h
    | ok ts2 =>
      rw [hpf] at h
      cases hbf : buildFooterHtml (resolveFooterTemplate (resolveFirstslide stg)).write_footer
          (resolveFooterTemplate (resolveFirstslide stg)).page_number
          (resolveFooterTemplate (resolveFirstslide stg)).footer_template
          (populateMetaDefaults pt ps m0) with
      | error e =>
        rw [hbf] at h
        cases h
      | ok f2 =>
        rw [hbf] at h
        simp only [Except.ok.injEq, Prod.mk.injEq] at h
        exact h.1.symm
  constructor
  · rw [hstg2, resolveFooterTemplate_first, resolveFirstslide_template]
  · rw [hstg2, resolveFooterTemplate_footer_eq, resolveFirstslide_footer]

theorem c4_amended_templates_witness :
    generateTitleslide (TSettings.mk "x" "f" false false) "" "" [] =
      Except.ok (TSettings.mk "x" "f" false false, "x", "")
    ∧ ((TSettings.mk "x" "f" false false : TSettings).firstslide_template =
        (if ("x" : String) = "" then defaultFirstslideTemplate else unescape "x")
      ∧ (TSettings.mk "x" "f" false false : TSettings).footer_template =
        (if ("f" : String) = "" then defaultFooterTemplate else "f")) :=
  ⟨rfl, c4_amended_templates (TSettings.mk "x" "f" false false) "" "" []
    (TSettings.mk "x" "f" false false) "x" "" rfl⟩

/-- Claim C10: before title-slide and footer rendering the metadata
mapping is populated with `author` (pre-seeded by `_analyse_metainfo`) and
with defaults for `title`, `subtitle`, `email`, `institution` and `date`,
and the derived flags `is_institution`, `is_author`, `is_subtitle` are
always set; hence rendering any template — the default title-slide and
footer templates included — never fails with a missing-key error for one
of these nine keys, for every input document. -/
theorem c10_default_meta_keys_safe (clean : String → String)
    (metadata partsTitle partsSubtitle t n : String)
    (hn : n ∈ ["title", "subtitle", "author", "email", "institution", "date",
      "is_institution", "is_author", "is_subtitle"]) :
    pformat t (populateMetaDefaults partsTitle partsSubtitle
        (analyseMetainfo clean metadata))
      ≠ Except.error (PyErr.keyError n) := by
  intro h
  have hmiss := pformat_keyError_means_missing t _ n h
  have hsome := populate_all_isSome partsTitle partsSubtitle _
    (analyse_author_isSome clean metadata) n hn
  rw [hmiss] at hsome
  exact absurd hsome (by simp)

theorem c10_default_meta_keys_safe_witness :
    "title" ∈ ["title", "subtitle", "author", "email", "institution", "date",
      "is_institution", "is_author", "is_subtitle"]
    ∧ pformat defaultFirstslideTemplate
        (populateMetaDefaults "" "" (analyseMetainfo id ""))
      ≠ Except.error (PyErr.keyError "title") :=
  ⟨by decide,
    c10_default_meta_keys_safe id "" "" "" defaultFirstslideTemplate "title" (by decide)⟩

set_option maxRecDepth 4000 in
/-- Claim C3: under the `inline` resource policy the header is rendered
with the custom `<script src>` and `<link>` accumulators both empty — no
directive referencing an external asset is emitted — and every configured
script and stylesheet contributes its full content, preceded by the
`<!-- inlining <path> --->` marker comment, to the inline embed blocks;
moreover none of the fixed header, body and footer template fragments
contains a `<link` or `<script src=` directive of its own (so no such
directive occurs anywhere in the assembled scaffolding). -/
theorem c3_inline_embeds_all (h : HeaderIn) (fs0 : FS) (hres : h.resources = "inline") :
    generateHeader h fs0 =
      (fs0,
        headerRender h.title h.parts_meta (extraMetaOf h.settings) h.reveal_theme
          h.reveal_root h.rstslide_root h.horizontal_center h.title_center
          (strConcat ((cssFilesAll h).map (fun f => inlineMarker f ++ h.content f))
            ++ String.intercalate "\n" h.css_embedd)
          (strConcat ((jsFilesAll h).map (fun f => inlineMarker f ++ h.content f ++ "\n\n"))
            ++ String.intercalate "\n" h.js_embedd)
          "" "")
    ∧ containsStr headerTemplate "<link" = false
    ∧ containsStr headerTemplate "<script src=" = false
    ∧ containsStr bodyTemplate "<link" = false
    ∧ containsStr bodyTemplate "<script src=" = false
    ∧ containsStr (revealInitTemplate ++ footerCloseTemplate) "<link" = false
    ∧ containsStr (revealInitTemplate ++ footerCloseTemplate) "<script src=" = false := by
  refine ⟨?_, by rfl, by rfl, by rfl, by rfl, ?_, ?_⟩
  · simp only [generateHeader, foldl_jsStep_inline h hres, foldl_cssStep_inline h hres,
      sEmpty_append]
  · rw [containsStr_append_of_nl revealInitTemplate footerCloseTemplate "<link"
      (by decide) (by decide) ⟨_, rfl⟩]
    rw [show revealInitTemplate = revealInitPart1 ++ revealInitPart2 ++ revealInitPart3
      ++ revealInitPart4 ++ revealInitPart5 from rfl]
    rw [containsStr_append_of_nl _ revealInitPart5 "<link" (by decide) (by decide) ⟨_, rfl⟩]
    rw [containsStr_append_of_nl _ revealInitPart4 "<link" (by decide) (by decide) ⟨_, rfl⟩]
    rw [containsStr_append_of_nl _ revealInitPart3 "<link" (by decide) (by decide) ⟨_, rfl⟩]
    rw [containsStr_append_of_nl _ revealInitPart2 "<link" (by decide) (by decide) ⟨_, rfl⟩]
    rw [show containsStr revealInitPart1 "<link" = false from rfl,
        show containsStr revealInitPart2 "<link" = false from rfl,
        show containsStr revealInitPart3 "<link" = false from rfl,
        show containsStr revealInitPart4 "<link" = false from rfl,
        show containsStr revealInitPart5 "<link" = false from rfl,
        show containsStr footerCloseTemplate "<link" = false from rfl]
    rfl
  · rw [containsStr_append_of_nl revealInitTemplate footerCloseTemplate "<script src="
      (by decide) (by decide) ⟨_, rfl⟩]
    rw [show revealInitTemplate = revealInitPart1 ++ revealInitPart2 ++ revealInitPart3
      ++ revealInitPart4 ++ revealInitPart5 from rfl]
    rw [containsStr_append_of_nl _ revealInitPart5 "<script src=" (by decide) (by decide) ⟨_, rfl⟩]
    rw [containsStr_append_of_nl _ revealInitPart4 "<script src=" (by decide) (by decide) ⟨_, rfl⟩]
    rw [containsStr_append_of_nl _ revealInitPart3 "<script src=" (by decide) (by decide) ⟨_, rfl⟩]
    rw [containsStr_append_of_nl _ revealInitPart2 "<script src=" (by decide) (by decide) ⟨_, rfl⟩]
    rw [show containsStr revealInitPart1 "<script src=" = false from rfl,
        show containsStr revealInitPart2 "<script src=" = false from rfl,
        show containsStr revealInitPart3 "<script src=" = false from rfl,
        show containsStr revealInitPart4 "<script src=" = false from rfl,
        show containsStr revealInitPart5 "<script src=" = false from rfl,
        show containsStr footerCloseTemplate "<script src=" = false from rfl]
    rfl

/-- Claim C8: at resource-resolution time the default assets are prepended
before every user-declared asset in the fixed order — the MathJax bundle
then the reveal script for scripts; the base reveal stylesheet, the theme
stylesheet, then the rstslide stylesheet for stylesheets — and the emitted
inclusion directives follow exactly that list, so the relative order of
the user assets is preserved in the final inclusion order (shown here for
the non-copying, non-inlining policies, where paths are referenced
as-is). -/
theorem c8_defaults_prepended (h : HeaderIn) (fs0 : FS)
    (hnl : h.resources ≠ "local") (hni : h.resources ≠ "inline") :
    generateHeader h fs0 =
      (fs0,
        headerRender h.title h.parts_meta (extraMetaOf h.settings) h.reveal_theme
          h.reveal_root h.rstslide_root h.horizontal_center h.title_center
          (String.intercalate "\n" h.css_embedd)
          (String.intercalate "\n" h.js_embedd)
          (strConcat ((joinPath h.mathjax_root "tex-svg.js"
              :: joinPath h.reveal_root "reveal.js" :: h.js_files).map scriptTag))
          (strConcat ((joinPath h.reveal_root "reveal.css"
              :: joinPath (joinPath h.reveal_root "theme") (h.reveal_theme ++ ".css")
              :: joinPath (joinPath h.rstslide_root "css") "rstslide.css"
              :: h.css_files).map (cssTagFor h.reveal_root)))) := by
  simp only [generateHeader, foldl_jsStep_noncopy h hnl hni, foldl_cssStep_noncopy h hnl hni,
    sEmpty_append, jsFilesAll, cssFilesAll]

set_option maxRecDepth 4000 in
/-- Claim C7: under the `local` policy, for a destination
`<resource dir>/<basename>` that does not pre-exist, processing all
configured scripts and stylesheets performs exactly one copy to that
destination when at least one asset has that basename (and none
otherwise) — the copy is skipped whenever the destination already exists —
and every emitted directive references the relative path
`<resource dir rel>/<basename of the asset>`, so two assets sharing a
basename yield one physical copy and identical directive paths. -/
theorem c7_local_dedup (h : HeaderIn) (fs0 : FS) (b : String)
    (hres : h.resources = "local")
    (habs : joinPath h.resource_dir_abspath b ∉ fs0.present) :
    countCopiesTo (generateHeader h fs0).1 (joinPath h.resource_dir_abspath b) =
      countCopiesTo fs0 (joinPath h.resource_dir_abspath b) +
        (if (jsFilesAll h ++ cssFilesAll h).any
            (fun f => joinPath h.resource_dir_abspath (basename f)
              == joinPath h.resource_dir_abspath b) then 1 else 0) ∧
    (generateHeader h fs0).2 =
      headerRender h.title h.parts_meta (extraMetaOf h.settings) h.reveal_theme
        h.reveal_root h.rstslide_root h.horizontal_center h.title_center
        (String.intercalate "\n" h.css_embedd)
        (String.intercalate "\n" h.js_embedd)
        (strConcat ((jsFilesAll h).map
          (fun f => scriptTag (joinPath h.resource_dir_relpath (basename f)))))
        (strConcat ((cssFilesAll h).map
          (fun f => cssTagFor h.reveal_root (joinPath h.resource_dir_relpath (basename f))))) := by
  have hgen : generateHeader h fs0 =
      ((jsFilesAll h ++ cssFilesAll h).foldl (localCopy h.resource_dir_abspath) fs0,
        headerRender h.title h.parts_meta (extraMetaOf h.settings) h.reveal_theme
          h.reveal_root h.rstslide_root h.horizontal_center h.title_center
          (String.intercalate "\n" h.css_embedd)
          (String.intercalate "\n" h.js_embedd)
          (strConcat ((jsFilesAll h).map
            (fun f => scriptTag (joinPath h.resource_dir_relpath (basename f)))))
          (strConcat ((cssFilesAll h).map
            (fun f => cssTagFor h.reveal_root (joinPath h.resource_dir_relpath (basename f)))))) := by
    simp only [generateHeader, foldl_jsStep_local h hres, foldl_cssStep_local h hres,
      sEmpty_append, List.foldl_append]
  rw [hgen]
  exact ⟨foldl_localCopy_count h.resource_dir_abspath (joinPath h.resource_dir_abspath b)
    (jsFilesAll h ++ cssFilesAll h) fs0 habs, rfl⟩

/-- Claim C9: `write_footer` takes priority over `page_number` when the
footer element is built.  With `write_footer` set, the produced title
slide and footer element are independent of `page_number`, and the footer
is the rendered footer template wrapped in the footer element carrying the
slide-number element; with `write_footer` unset and `page_number` set,
only the bare slide-number footer is emitted; with both unset, the footer
fragment is the empty string (no footer element at all). -/
theorem c9_footer_priority (ft ftr : String) (pn pn2 : Bool) (pt ps t : String)
    (m0 m : List (String × String)) :
    (generateTitleslide (TSettings.mk ft ftr true pn) pt ps m0).map (fun r => r.2)
      = (generateTitleslide (TSettings.mk ft ftr true pn2) pt ps m0).map (fun r => r.2)
    ∧ buildFooterHtml true pn t m
      = (pformat t m).map (fun r => "<footer id=\"footer\">" ++ r
          ++ "<b id=\"slide_number\" style=\"padding: 1em;\"></b></footer>")
    ∧ buildFooterHtml false true t m = Except.ok "<footer><b id=\"slide_number\"></b></footer>"
    ∧ buildFooterHtml false false t m = Except.ok "" := by
  refine ⟨?_, rfl, rfl, rfl⟩
  have hfs : ∀ (b : Bool), resolveFirstslide (TSettings.mk ft ftr true b)
      = TSettings.mk (if ft = "" then defaultFirstslideTemplate else unescape ft) ftr true b := by
    intro b
    by_cases h1 : ft = "" <;> simp [resolveFirstslide, h1]
  have hft : ∀ (b : Bool) (x : String), resolveFooterTemplate (TSettings.mk x ftr true b)
      = TSettings.mk x (if ftr = "" then defaultFooterTemplate else ftr) true b := by
    intro b x
    by_cases h2 : ftr = "" <;> simp [resolveFooterTemplate, h2]
  simp only [generateTitleslide, hfs, hft]
  cases hpf : pformat (if ft = "" then defaultFirstslideTemplate else unescape ft)
      (populateMetaDefaults pt ps m0) with
  | error e => rfl
  | ok ts2 =>
    simp only [buildFooterHtml, ite_true]
    cases hbb : pformat (if ftr = "" then defaultFooterTemplate else ftr)
        (populateMetaDefaults pt ps m0) with
    | error e => rfl
    | ok f2 => rfl

/-! ### Concrete header inputs for the witnesses. -/

def fsEmpty : FS := FS.mk [] []

def hBase : HeaderIn :=
  { resources := "central"
    resource_dir_abspath := "/out/slides_rstslide"
    resource_dir_relpath := "slides_rstslide"
    mathjax_root := "/opt/mathjax"
    reveal_root := "/opt/reveal"
    rstslide_root := "/opt/rstslide"
    content := fun _ => "content"
    title := "T"
    parts_meta := ""
    settings := []
    js_files := ["u.js"]
    css_files := ["u.css"]
    js_embedd := []
    css_embedd := []
    reveal_theme := "white"
    horizontal_center := false
    title_center := false }

def hInline : HeaderIn := { hBase with resources := "inline" }

def hLocal : HeaderIn :=
  { hBase with resources := "local", js_files := ["p/a.js", "q/a.js"] }

theorem c3_inline_embeds_all_witness :
    hInline.resources = "inline"
    ∧ (generateHeader hInline fsEmpty =
        (fsEmpty,
          headerRender hInline.title hInline.parts_meta (extraMetaOf hInline.settings)
            hInline.reveal_theme hInline.reveal_root hInline.rstslide_root
            hInline.horizontal_center hInline.title_center
            (strConcat ((cssFilesAll hInline).map (fun f => inlineMarker f ++ hInline.content f))
              ++ String.intercalate "\n" hInline.css_embedd)
            (strConcat ((jsFilesAll hInline).map
                (fun f => inlineMarker f ++ hInline.content f ++ "\n\n"))
              ++ String.intercalate "\n" hInline.js_embedd)
            "" "")
      ∧ containsStr headerTemplate "<link" = false
      ∧ containsStr headerTemplate "<script src=" = false
      ∧ containsStr bodyTemplate "<link" = false
      ∧ containsStr bodyTemplate "<script src=" = false
      ∧ containsStr (revealInitTemplate ++ footerCloseTemplate) "<link" = false
      ∧ containsStr (revealInitTemplate ++ footerCloseTemplate) "<script src=" = false) :=
  ⟨rfl, c3_inline_embeds_all hInline fsEmpty rfl⟩

theorem c8_defaults_prepended_witness :
    hBase.resources ≠ "local" ∧ hBase.resources ≠ "inline"
    ∧ generateHeader hBase fsEmpty =
      (fsEmpty,
        headerRender hBase.title hBase.parts_meta (extraMetaOf hBase.settings)
          hBase.reveal_theme hBase.reveal_root hBase.rstslide_root
          hBase.horizontal_center hBase.title_center
          (String.intercalate "\n" hBase.css_embedd)
          (String.intercalate "\n" hBase.js_embedd)
          (strConcat ((joinPath hBase.mathjax_root "tex-svg.js"
              :: joinPath hBase.reveal_root "reveal.js" :: hBase.js_files).map scriptTag))
          (strConcat ((joinPath hBase.reveal_root "reveal.css"
              :: joinPath (joinPath hBase.reveal_root "theme") (hBase.reveal_theme ++ ".css")
              :: joinPath (joinPath hBase.rstslide_root "css") "rstslide.css"
              :: hBase.css_files).map (cssTagFor hBase.reveal_root)))) :=
  ⟨by decide, by decide, c8_defaults_prepended hBase fsEmpty (by decide) (by decide)⟩

theorem c7_local_dedup_witness :
    hLocal.resources = "local"
    ∧ joinPath hLocal.resource_dir_abspath "a.js" ∉ fsEmpty.present
    ∧ (countCopiesTo (generateHeader hLocal fsEmpty).1
          (joinPath hLocal.resource_dir_abspath "a.js") =
        countCopiesTo fsEmpty (joinPath hLocal.resource_dir_abspath "a.js") +
          (if (jsFilesAll hLocal ++ cssFilesAll hLocal).any
              (fun f => joinPath hLocal.resource_dir_abspath (basename f)
                == joinPath hLocal.resource_dir_abspath "a.js") then 1 else 0)
      ∧ (generateHeader hLocal fsEmpty).2 =
          headerRender hLocal.title hLocal.parts_meta (extraMetaOf hLocal.settings)
            hLocal.reveal_theme hLocal.reveal_root hLocal.rstslide_root
            hLocal.horizontal_center hLocal.title_center
            (String.intercalate "\n" hLocal.css_embedd)
            (String.intercalate "\n" hLocal.js_embedd)
            (strConcat ((jsFilesAll hLocal).map
              (fun f => scriptTag (joinPath hLocal.resource_dir_relpath (basename f)))))
            (strConcat ((cssFilesAll hLocal).map
              (fun f => cssTagFor hLocal.reveal_root
                (joinPath hLocal.resource_dir_relpath (basename f)))))) :=
  ⟨rfl, List.not_mem_nil _,
    c7_local_dedup hLocal fsEmpty "a.js" rfl (List.not_mem_nil _)⟩
